import Mathlib

/-
Verification of the aircraft behavior / movement simulation core of the
`airtraffic` repository (src/lib/aircraftBehavior.ts, src/lib/aircraftMovement.ts,
and the radar component that drives them).

Modelling conventions:
* JavaScript numbers are modelled as real numbers (`ℝ`); the source's arithmetic
  is translated literally (JS `%` becomes `jsMod`, `Math.sign` becomes `jsSign`,
  `Math.floor` becomes `jsFloor`).
* The turf.js geodesy primitives (`turf.destination`, `turf.bearing`,
  `turf.distance`) are a third-party dependency.  The embedding is parameterised
  by a `Geo` record of the three primitives, and `turfGeo` instantiates it with
  the actual turf formulas (spherical trigonometry, translated from the turf v6
  sources, including turf's `degrees % 360` normalisation helpers).
* `seedrandom(seed)` produces a deterministic stream of draws in [0,1) for a
  given seed; the stream is modelled as a function `ℕ → ℝ` together with an
  index recording how many draws have been consumed.  Copies of a behavior
  state share the generator in JS, and the simulation is sequential, so the
  explicit index faithfully tracks the shared closure's position.
* `Date.now()` is threaded through every operation as an explicit `now`
  parameter (milliseconds).
* The static data file `@/data/airports.json` is not part of the sources; the
  two runway records the behavior code reads from it (KBUF and KIAG,
  `runways[0]`) are passed in as an `AirportsJson` parameter.
-/

namespace AirTraffic

noncomputable section

/-- JS remainder `a % b` for `b > 0`: truncated division remainder, so the
result keeps the sign of the dividend `a` (unlike mathematical `mod`). -/
def jsMod (a b : ℝ) : ℝ :=
  if 0 ≤ a then a - b * ⌊a / b⌋ else -((-a) - b * ⌊(-a) / b⌋)

/-- JS `Math.sign`. -/
def jsSign (x : ℝ) : ℝ :=
  if 0 < x then 1 else if x < 0 then -1 else 0

/-- JS `Math.floor`, producing an integer. -/
def jsFloor (x : ℝ) : ℤ := ⌊x⌋

/-- Geographic point, `[lon, lat]` order as in GeoJSON / turf. -/
structure Pt where
  lon : ℝ
  lat : ℝ

/-- The three turf.js geodesy primitives the simulation core uses.
`destination origin distanceNm bearingDeg`, `bearing a b`, `distance a b` (nm). -/
structure Geo where
  destination : Pt → ℝ → ℝ → Pt
  bearing : Pt → Pt → ℝ
  distance : Pt → Pt → ℝ

/-- Aircraft behavior states (enum `AircraftState` in aircraftBehavior.ts). -/
inductive AircraftState where
  | CRUISE
  | TURNING
  | CLIMBING
  | DESCENDING
  | APPROACH_TRANSIT
  | FINAL_APPROACH
deriving DecidableEq, Repr

open AircraftState

/-- One runway record from `@/data/airports.json` (`runways[0]` of an airport):
the fields the behavior code reads are `id`, `heading`, and `start.{lat,lon}`. -/
structure RunwayJson where
  id : String
  heading : ℝ
  startLat : ℝ
  startLon : ℝ

/-- The part of `@/data/airports.json` the behavior code consults:
`airportData.KBUF.runways[0]` and `airportData.KIAG.runways[0]`.
The JSON file itself is not among the provided sources, so its contents are a
parameter of the embedding. -/
structure AirportsJson where
  kbufRunway : RunwayJson
  kiagRunway : RunwayJson

/-- Source `runway.threshold` inside a `RunwayApproach` (lat/lon of the threshold). -/
structure ThresholdPt where
  lat : ℝ
  lon : ℝ

/-- Source `runway` field of a `RunwayApproach`. -/
structure ApproachRunway where
  id : String
  heading : ℝ
  elevation : ℝ
  threshold : ThresholdPt

/-- Source `approachFix` field of a `RunwayApproach`. -/
structure ApproachFixPt where
  lat : ℝ
  lon : ℝ
  altitude : ℝ

/-- Interface `RunwayApproach` of aircraftBehavior.ts. -/
structure RunwayApproach where
  airport : String
  runway : ApproachRunway
  approachFix : ApproachFixPt

/-- Interface `BehaviorState` of aircraftBehavior.ts.  The seedrandom closure is
modelled as the stream `rng` plus the number `rngIdx` of draws already taken. -/
structure BehaviorState where
  currentState : AircraftState
  targetHeading : Option ℝ
  targetAltitude : Option ℝ
  stateStartTime : ℝ
  rng : ℕ → ℝ
  rngIdx : ℕ
  approachPlan : Option RunwayApproach
  position : Pt

/-- Interface `BehaviorUpdate` of aircraftBehavior.ts: a sparse record of the
fields the behavior step decided to change this tick. -/
structure BehaviorUpdate where
  newHeading : Option ℝ := none
  newAltitude : Option ℝ := none
  newState : Option AircraftState := none
  newGroundSpeed : Option ℝ := none

/-- Source `STANDARD_TURN_RATE` (degrees per second). -/
def STANDARD_TURN_RATE : ℝ := 3

/-- Source `DESCENT_GRADIENT` (nautical miles per 1000 ft). -/
def DESCENT_GRADIENT : ℝ := 3

/-- Source `DESCENT_RATE` (feet per minute). -/
def DESCENT_RATE : ℝ := 500

/-- Source `APPROACH_SPEED` (knots). -/
def APPROACH_SPEED : ℝ := 90

/-- Source `FIELD_ELEVATION` (KBUF field elevation, feet MSL). -/
def FIELD_ELEVATION : ℝ := 728

/-- Source `CIRCUIT_ALTITUDE` (feet above field elevation). -/
def CIRCUIT_ALTITUDE : ℝ := 1000

/-- The Markov transition table `stateTransitions` of aircraftBehavior.ts. -/
def stateTransitions : AircraftState → List (AircraftState × ℝ)
  | CRUISE => [(CRUISE, 0.95), (TURNING, 0.05)]
  | TURNING => [(CRUISE, 0.1), (TURNING, 0.9)]
  | CLIMBING => [(CRUISE, 0.2), (CLIMBING, 0.8)]
  | DESCENDING => [(CRUISE, 0.2), (DESCENDING, 0.8)]
  | APPROACH_TRANSIT => [(APPROACH_TRANSIT, 1.0)]
  | FINAL_APPROACH => [(FINAL_APPROACH, 1.0)]

/-- The cumulative-probability walk inside `selectNextState`. -/
def walkTransitions (ts : List (AircraftState × ℝ)) (random cumulativeProbability : ℝ)
    (fallback : AircraftState) : AircraftState :=
  match ts with
  | [] => fallback
  | t :: rest =>
    if random < cumulativeProbability + t.2 then t.1
    else walkTransitions rest random (cumulativeProbability + t.2) fallback

/-- Source `selectNextState` of aircraftBehavior.ts, with the already-drawn random
value passed in (the source draws `rng()` at the top of the function). -/
def selectNextState (currentState : AircraftState) (random : ℝ) : AircraftState :=
  walkTransitions (stateTransitions currentState) random 0 currentState

/-- Source `calculateApproachFix` of aircraftBehavior.ts; returns `[lon, lat, altitude]`. -/
def calculateApproachFix (geo : Geo) (runway : RunwayJson) (altitude : ℝ) : ℝ × ℝ × ℝ :=
  let altitudeAboveField := altitude - FIELD_ELEVATION
  let distanceRequired := altitudeAboveField / 1000 * DESCENT_GRADIENT
  let approachPoint := geo.destination (Pt.mk runway.startLon runway.startLat)
      distanceRequired (jsMod (runway.heading + 180) 360)
  (approachPoint.lon, approachPoint.lat, altitude)

/-- Source `planApproach` of aircraftBehavior.ts, with the single `rng()` draw it
performs passed in as `r`.  The source indexes `['KBUF','KIAG']` with
`Math.floor(rng() * 2)`; an index outside {0, 1} would be a JS `undefined`
crash, modelled here by the `getD` default (never reached for draws in [0,1)). -/
def planApproach (geo : Geo) (db : AirportsJson) (currentAltitude r : ℝ) : RunwayApproach :=
  let selected := [("KBUF", db.kbufRunway), ("KIAG", db.kiagRunway)].getD
      (jsFloor (r * 2)).toNat ("KBUF", db.kbufRunway)
  let runway := selected.2
  let fix := calculateApproachFix geo runway currentAltitude
  { airport := selected.1
    runway :=
      { id := runway.id
        heading := runway.heading
        elevation := FIELD_ELEVATION
        threshold := { lat := runway.startLat, lon := runway.startLon } }
    approachFix := { lat := fix.2.1, lon := fix.1, altitude := fix.2.2 } }

/-- Source `createInitialBehavior` of aircraftBehavior.ts.  `rng` is the stream of the
seedrandom generator for the chosen seed; `now` is the `Date.now()` value at
creation time. -/
def createInitialBehavior (rng : ℕ → ℝ) (now : ℝ) : BehaviorState :=
  { currentState := CRUISE
    targetHeading := none
    targetAltitude := none
    stateStartTime := now
    rng := rng
    rngIdx := 0
    approachPlan := none
    position := Pt.mk 0 0 }

/-- The `headingDiff` computation inside `calculateNewHeading`: the signed
angular difference from the current to the target heading, in [-180, 180) for
inputs whose difference-plus-540 is nonnegative. -/
def headingDelta (currentHeading targetHeading : ℝ) : ℝ :=
  jsMod (targetHeading - currentHeading + 540) 360 - 180

/-- Source `calculateNewHeading` of aircraftBehavior.ts. -/
def calculateNewHeading (currentHeading targetHeading elapsedSeconds : ℝ) : ℝ :=
  let turnAmount := STANDARD_TURN_RATE * elapsedSeconds
  let headingDiff := headingDelta currentHeading targetHeading
  if |headingDiff| ≤ turnAmount then targetHeading
  else jsMod (currentHeading + jsSign headingDiff * turnAmount + 360) 360

/-- First half of `updateBehavior` (lines 185-224): the dwell-gated random
transition draw, performed only from CRUISE, together with the state-entry
side effects for the drawn state. -/
def randomTransitionStep (geo : Geo) (db : AirportsJson) (s0 : BehaviorState)
    (currentAltitude now : ℝ) : BehaviorState × BehaviorUpdate :=
  let stateElapsedTime := now - s0.stateStartTime
  if 5000 ≤ stateElapsedTime ∧ s0.currentState = CRUISE then
    let r := s0.rng s0.rngIdx
    let s1 := { s0 with rngIdx := s0.rngIdx + 1 }
    let nextState := selectNextState s0.currentState r
    if nextState ≠ s0.currentState then
      let s2 := { s1 with currentState := nextState, stateStartTime := now }
      if nextState = TURNING then
        let newTarget : ℝ := (jsFloor (s2.rng s2.rngIdx * 36) : ℝ) * 10
        ({ s2 with rngIdx := s2.rngIdx + 1, targetHeading := some newTarget },
         { newState := some nextState })
      else if nextState = APPROACH_TRANSIT then
        let plan := planApproach geo db currentAltitude (s2.rng s2.rngIdx)
        let s3 := { s2 with rngIdx := s2.rngIdx + 1, approachPlan := some plan }
        let bearingToFix := geo.bearing s3.position
            (Pt.mk plan.approachFix.lon plan.approachFix.lat)
        ({ s3 with targetHeading := some bearingToFix
                   targetAltitude := some plan.approachFix.altitude },
         { newState := some nextState, newGroundSpeed := some APPROACH_SPEED })
      else
        (s2, { newState := some nextState })
    else
      (s1, {})
  else
    (s0, {})

/-- Second half of `updateBehavior` (the `switch` on the current state,
lines 226-355): per-state continuous behavior and deterministic exits. -/
def applyStateBehavior (geo : Geo) (s : BehaviorState) (upd : BehaviorUpdate)
    (currentHeading currentAltitude elapsedSeconds now : ℝ) :
    BehaviorState × BehaviorUpdate :=
  match s.currentState with
  | TURNING =>
    match s.targetHeading with
    | none => (s, upd)
    | some tgt =>
      let newHeading := calculateNewHeading currentHeading tgt elapsedSeconds
      let upd1 := { upd with newHeading := some newHeading }
      if newHeading = tgt then
        match s.approachPlan with
        | some _ =>
          ({ s with currentState := FINAL_APPROACH, stateStartTime := now },
           { upd1 with newState := some FINAL_APPROACH
                       newGroundSpeed := some APPROACH_SPEED })
        | none =>
          ({ s with currentState := CRUISE, targetHeading := none,
                    stateStartTime := now },
           { upd1 with newState := some CRUISE })
      else
        (s, upd1)
  | CLIMBING =>
    match s.targetAltitude with
    | none => (s, upd)
    | some tgt =>
      let altitudeChange := 500 * elapsedSeconds / 60
      let newAltitude := currentAltitude + altitudeChange
      let upd1 := { upd with newAltitude := some (min newAltitude tgt) }
      if tgt ≤ newAltitude then
        ({ s with currentState := CRUISE, targetAltitude := none,
                  stateStartTime := now },
         { upd1 with newState := some CRUISE, newGroundSpeed := some 95 })
      else
        (s, upd1)
  | DESCENDING =>
    match s.targetAltitude with
    | none => (s, upd)
    | some tgt =>
      let altitudeChange := 500 * elapsedSeconds / 60
      let newAltitude := currentAltitude - altitudeChange
      let upd1 := { upd with newAltitude := some (max newAltitude tgt) }
      if newAltitude ≤ tgt then
        ({ s with currentState := CRUISE, targetAltitude := none,
                  stateStartTime := now },
         { upd1 with newState := some CRUISE, newGroundSpeed := some 95 })
      else
        (s, upd1)
  | APPROACH_TRANSIT =>
    match s.approachPlan with
    | none => (s, upd)
    | some plan =>
      let distanceToFix := geo.distance s.position
          (Pt.mk plan.approachFix.lon plan.approachFix.lat)
      if distanceToFix < 0.5 then
        ({ s with currentState := TURNING, targetHeading := some plan.runway.heading,
                  stateStartTime := now },
         { upd with newState := some TURNING })
      else
        (s, upd)
  | FINAL_APPROACH =>
    match s.approachPlan with
    | none => (s, upd)
    | some plan =>
      let altitudeChange := DESCENT_RATE * elapsedSeconds / 60
      let newAltitude := currentAltitude - altitudeChange
      let upd1 := { upd with newAltitude := some (max newAltitude plan.runway.elevation) }
      if newAltitude ≤ plan.runway.elevation then
        ({ s with currentState := CLIMBING
                  targetAltitude := some (plan.runway.elevation + CIRCUIT_ALTITUDE)
                  approachPlan := none
                  stateStartTime := now },
         { upd1 with newState := some CLIMBING, newGroundSpeed := some 95 })
      else
        (s, upd1)
  | CRUISE => (s, upd)

/-- Source `updateBehavior` of aircraftBehavior.ts: the random transition draw
followed by the per-state switch. -/
def updateBehavior (geo : Geo) (db : AirportsJson) (behaviorState : BehaviorState)
    (currentHeading currentAltitude elapsedSeconds now : ℝ) :
    BehaviorState × BehaviorUpdate :=
  let p := randomTransitionStep geo db behaviorState currentAltitude now
  applyStateBehavior geo p.1 p.2 currentHeading currentAltitude elapsedSeconds now

/-- Source `forceTurn` of aircraftBehavior.ts. -/
def forceTurn (behaviorState : BehaviorState) (currentHeading now : ℝ) :
    BehaviorState × BehaviorUpdate :=
  let targetHeading := jsMod (currentHeading + 180) 360
  ({ behaviorState with currentState := TURNING, targetHeading := some targetHeading,
                        stateStartTime := now },
   { newState := some TURNING })

/-- Source `forceLanding` of aircraftBehavior.ts (draws once from the generator via
`planApproach`). -/
def forceLanding (geo : Geo) (db : AirportsJson) (behaviorState : BehaviorState)
    (currentAltitude now : ℝ) : BehaviorState × BehaviorUpdate :=
  let plan := planApproach geo db currentAltitude (behaviorState.rng behaviorState.rngIdx)
  let s1 := { behaviorState with currentState := TURNING, stateStartTime := now,
                                 approachPlan := some plan,
                                 rngIdx := behaviorState.rngIdx + 1 }
  let bearingToFix := geo.bearing behaviorState.position
      (Pt.mk plan.approachFix.lon plan.approachFix.lat)
  ({ s1 with targetHeading := some bearingToFix,
             targetAltitude := some plan.approachFix.altitude },
   { newState := some TURNING })

/-- Source `forceFlyTo` of aircraftBehavior.ts. -/
def forceFlyTo (geo : Geo) (behaviorState : BehaviorState) (targetLat targetLon now : ℝ) :
    BehaviorState × BehaviorUpdate :=
  let bearingToTarget := geo.bearing behaviorState.position (Pt.mk targetLon targetLat)
  ({ behaviorState with currentState := TURNING, stateStartTime := now,
                        targetHeading := some bearingToTarget },
   { newState := some TURNING })

/-- Source `forceClimb` of aircraftBehavior.ts. -/
def forceClimb (behaviorState : BehaviorState) (currentAltitude now : ℝ) :
    BehaviorState × BehaviorUpdate :=
  let targetAltitude := currentAltitude + 1000
  ({ behaviorState with currentState := CLIMBING, stateStartTime := now,
                        targetAltitude := some targetAltitude },
   { newState := some CLIMBING, newGroundSpeed := some 90 })

/-- Source `forceDescent` of aircraftBehavior.ts. -/
def forceDescent (behaviorState : BehaviorState) (currentAltitude now : ℝ) :
    BehaviorState × BehaviorUpdate :=
  let targetAltitude := max (currentAltitude - 1000) (FIELD_ELEVATION + 500)
  ({ behaviorState with currentState := DESCENDING, stateStartTime := now,
                        targetAltitude := some targetAltitude },
   { newState := some DESCENDING, newGroundSpeed := some 90 })

/-- Interface `Position` of aircraftMovement.ts (timestamp in ms). -/
structure Position where
  lon : ℝ
  lat : ℝ
  timestamp : ℝ

/-- The `behavior` field of an `Aircraft`. -/
structure AircraftBehavior where
  state : AircraftState
  data : BehaviorState

/-- Interface `Aircraft` of aircraftMovement.ts. -/
structure Aircraft where
  position : Position
  positionHistory : List Position
  altitude : ℝ
  heading : ℝ
  groundSpeed : ℝ
  type : String
  squawk : String
  behavior : AircraftBehavior

/-- Source `MAX_HISTORY_LENGTH` of aircraftMovement.ts. -/
def MAX_HISTORY_LENGTH : ℕ := 10

/-- Source `updateAircraftPosition` of aircraftMovement.ts: refresh the behavior
state's position copy, run the behavior step, apply its sparse update, project
the new position from the (possibly just updated) heading and speed, and push
the superseded position onto the bounded history. -/
def updateAircraftPosition (geo : Geo) (db : AirportsJson) (aircraft : Aircraft)
    (elapsedSeconds now : ℝ) : Aircraft :=
  let stepped := updateBehavior geo db
      { aircraft.behavior.data with
          position := Pt.mk aircraft.position.lon aircraft.position.lat }
      aircraft.heading aircraft.altitude elapsedSeconds now
  let newBehaviorData := stepped.1
  let behaviorUpdate := stepped.2
  let heading1 := behaviorUpdate.newHeading.getD aircraft.heading
  let altitude1 := behaviorUpdate.newAltitude.getD aircraft.altitude
  let groundSpeed1 := behaviorUpdate.newGroundSpeed.getD aircraft.groundSpeed
  let state1 := behaviorUpdate.newState.getD aircraft.behavior.state
  let distanceNM := groundSpeed1 * elapsedSeconds / 3600
  let newPosition := geo.destination (Pt.mk aircraft.position.lon aircraft.position.lat)
      distanceNM heading1
  let newPositionData : Position :=
    { lon := newPosition.lon, lat := newPosition.lat, timestamp := now }
  let updatedHistory := (aircraft.position :: aircraft.positionHistory).take MAX_HISTORY_LENGTH
  { aircraft with
      position := newPositionData
      positionHistory := updatedHistory
      altitude := altitude1
      heading := heading1
      groundSpeed := groundSpeed1
      behavior := { state := state1, data := newBehaviorData } }

/-- Source `createTestAircraft` of aircraftMovement.ts (15 nm east of the reference
point, CRUISE at 1500 ft / heading 360 / 95 kt, empty history). -/
def createTestAircraft (geo : Geo) (referencePoint : Pt) (rng : ℕ → ℝ) (now : ℝ) :
    Aircraft :=
  let initialPosition := geo.destination referencePoint 15 90
  let initialPositionData : Position :=
    { lon := initialPosition.lon, lat := initialPosition.lat, timestamp := now }
  let initialBehavior :=
    { createInitialBehavior rng now with
        position := Pt.mk initialPositionData.lon initialPositionData.lat }
  { position := initialPositionData
    positionHistory := []
    altitude := 1500
    heading := 360
    groundSpeed := 95
    type := "PA28"
    squawk := "4200"
    behavior := { state := CRUISE, data := initialBehavior } }

/-- JS `update.field || fallback` applied to a numeric update field: `0` is
falsy in JS, so a present value of `0` would fall back (the radar component
uses `||` when applying force-command updates). -/
def jsOrNum (o : Option ℝ) (fallback : ℝ) : ℝ :=
  match o with
  | none => fallback
  | some v => if v = 0 then fallback else v

/-- JS `update.newState || fallback` (enum values are non-empty strings, hence
always truthy). -/
def jsOrState (o : Option AircraftState) (fallback : AircraftState) : AircraftState :=
  o.getD fallback

/-- The radar component's `r` key handler: apply `forceTurn` to the behavior
data; only the behavior field of the aircraft snapshot is replaced. -/
def radarForceTurn (ac : Aircraft) (now : ℝ) : Aircraft :=
  let stepped := forceTurn ac.behavior.data ac.heading now
  { ac with behavior := { state := jsOrState stepped.2.newState ac.behavior.state,
                          data := stepped.1 } }

/-- The radar component's `l` key handler: apply `forceLanding`, then apply the
update's heading/speed with JS `||` semantics. -/
def radarForceLanding (geo : Geo) (db : AirportsJson) (ac : Aircraft) (now : ℝ) :
    Aircraft :=
  let stepped := forceLanding geo db ac.behavior.data ac.altitude now
  { ac with behavior := { state := jsOrState stepped.2.newState ac.behavior.state,
                          data := stepped.1 }
            heading := jsOrNum stepped.2.newHeading ac.heading
            groundSpeed := jsOrNum stepped.2.newGroundSpeed ac.groundSpeed }

/-- The radar component's `c` key handler: apply `forceClimb` and the update's
ground speed. -/
def radarForceClimb (ac : Aircraft) (now : ℝ) : Aircraft :=
  let stepped := forceClimb ac.behavior.data ac.altitude now
  { ac with behavior := { state := jsOrState stepped.2.newState ac.behavior.state,
                          data := stepped.1 }
            groundSpeed := jsOrNum stepped.2.newGroundSpeed ac.groundSpeed }

/-- The radar component's `d` key handler: apply `forceDescent` and the
update's ground speed. -/
def radarForceDescent (ac : Aircraft) (now : ℝ) : Aircraft :=
  let stepped := forceDescent ac.behavior.data ac.altitude now
  { ac with behavior := { state := jsOrState stepped.2.newState ac.behavior.state,
                          data := stepped.1 }
            groundSpeed := jsOrNum stepped.2.newGroundSpeed ac.groundSpeed }

/-- The radar component's click handler: apply `forceFlyTo` toward the clicked
point; only the behavior field is replaced. -/
def radarForceFlyTo (geo : Geo) (ac : Aircraft) (targetLat targetLon now : ℝ) :
    Aircraft :=
  let stepped := forceFlyTo geo ac.behavior.data targetLat targetLon now
  { ac with behavior := { state := jsOrState stepped.2.newState ac.behavior.state,
                          data := stepped.1 } }

/-- One interaction with the simulated aircraft: a timer tick (with its elapsed
seconds and its `Date.now()` value) or one of the five forced-maneuver
commands of the radar component (each observing `Date.now()` when applied). -/
inductive SimCommand where
  | tick (elapsedSeconds now : ℝ)
  | cmdTurn (now : ℝ)
  | cmdLanding (now : ℝ)
  | cmdClimb (now : ℝ)
  | cmdDescent (now : ℝ)
  | cmdFlyTo (targetLat targetLon now : ℝ)

/-- Apply one `SimCommand` to an aircraft snapshot, exactly as the radar
component does. -/
def applyCommand (geo : Geo) (db : AirportsJson) (ac : Aircraft) :
    SimCommand → Aircraft
  | SimCommand.tick e now => updateAircraftPosition geo db ac e now
  | SimCommand.cmdTurn now => radarForceTurn ac now
  | SimCommand.cmdLanding now => radarForceLanding geo db ac now
  | SimCommand.cmdClimb now => radarForceClimb ac now
  | SimCommand.cmdDescent now => radarForceDescent ac now
  | SimCommand.cmdFlyTo lat lon now => radarForceFlyTo geo ac lat lon now

/-- Run a whole script of commands, oldest first. -/
def runScript (geo : Geo) (db : AirportsJson) (ac : Aircraft) :
    List SimCommand → Aircraft
  | [] => ac
  | c :: rest => runScript geo db (applyCommand geo db ac c) rest

/-- The trace of snapshots a script produces (the state after every command). -/
def runTrace (geo : Geo) (db : AirportsJson) (ac : Aircraft) :
    List SimCommand → List Aircraft
  | [] => []
  | c :: rest =>
    let ac1 := applyCommand geo db ac c
    ac1 :: runTrace geo db ac1 rest

end

/- Turf.js geodesy, translated from the turf v6 sources (helpers
`degreesToRadians` / `radiansToDegrees` include turf's `% 360` and
`% (2*Math.PI)` normalisation; `Math.atan2` is modelled by `jsAtan2`). -/

noncomputable section

/-- JS `Math.atan2 y x` (sign conventions of the IEEE/JS definition; the
`x = y = 0` corner returns 0). -/
def jsAtan2 (y x : ℝ) : ℝ :=
  if 0 < x then Real.arctan (y / x)
  else if x < 0 then
    (if 0 ≤ y then Real.arctan (y / x) + Real.pi else Real.arctan (y / x) - Real.pi)
  else
    (if 0 < y then Real.pi / 2 else if y < 0 then -(Real.pi / 2) else 0)

/-- turf `degreesToRadians` (note the JS `%` pre-normalisation). -/
def degreesToRadians (degrees : ℝ) : ℝ :=
  jsMod degrees 360 * Real.pi / 180

/-- turf `radiansToDegrees` (note the JS `%` pre-normalisation). -/
def radiansToDegrees (radians : ℝ) : ℝ :=
  jsMod radians (2 * Real.pi) * 180 / Real.pi

/-- turf `earthRadius` in metres. -/
def earthRadius : ℝ := 6371008.8

/-- turf `lengthToRadians` for nautical miles (factor `earthRadius / 1852`). -/
def lengthToRadians (distance : ℝ) : ℝ :=
  distance / (earthRadius / 1852)

/-- turf `radiansToLength` for nautical miles. -/
def radiansToLength (radians : ℝ) : ℝ :=
  radians * (earthRadius / 1852)

/-- turf `bearing` (initial great-circle bearing, in degrees in (-180, 180]). -/
def turfBearing (p q : Pt) : ℝ :=
  let lon1 := degreesToRadians p.lon
  let lon2 := degreesToRadians q.lon
  let lat1 := degreesToRadians p.lat
  let lat2 := degreesToRadians q.lat
  let a := Real.sin (lon2 - lon1) * Real.cos lat2
  let b := Real.cos lat1 * Real.sin lat2 -
      Real.sin lat1 * Real.cos lat2 * Real.cos (lon2 - lon1)
  radiansToDegrees (jsAtan2 a b)

/-- turf `destination` (great-circle projection by distance and bearing). -/
def turfDestination (origin : Pt) (distance bearing : ℝ) : Pt :=
  let longitude1 := degreesToRadians origin.lon
  let latitude1 := degreesToRadians origin.lat
  let bearingRad := degreesToRadians bearing
  let radians := lengthToRadians distance
  let latitude2 := Real.arcsin (Real.sin latitude1 * Real.cos radians +
      Real.cos latitude1 * Real.sin radians * Real.cos bearingRad)
  let longitude2 := longitude1 + jsAtan2
      (Real.sin bearingRad * Real.sin radians * Real.cos latitude1)
      (Real.cos radians - Real.sin latitude1 * Real.sin latitude2)
  Pt.mk (radiansToDegrees longitude2) (radiansToDegrees latitude2)

/-- turf `distance` (haversine, in nautical miles). -/
def turfDistance (p q : Pt) : ℝ :=
  let dLat := degreesToRadians (q.lat - p.lat)
  let dLon := degreesToRadians (q.lon - p.lon)
  let lat1 := degreesToRadians p.lat
  let lat2 := degreesToRadians q.lat
  let a := Real.sin (dLat / 2) ^ 2 +
      Real.sin (dLon / 2) ^ 2 * Real.cos lat1 * Real.cos lat2
  radiansToLength (2 * jsAtan2 (Real.sqrt a) (Real.sqrt (1 - a)))

/-- The geodesy instance the program actually runs with: the turf primitives. -/
def turfGeo : Geo :=
  { destination := turfDestination
    bearing := turfBearing
    distance := turfDistance }

/-- A degenerate geodesy instance (identity projection, zero bearing and zero
distance), used to instantiate theorems that hold for every `Geo` at concrete
inputs. -/
def constGeo : Geo :=
  { destination := fun p _ _ => p
    bearing := fun _ _ => 0
    distance := fun _ _ => 0 }

/-- Sample runway records standing in for the absent `airports.json` data file
when a theorem that holds for every `AirportsJson` is instantiated at a
concrete input; none of the results depend on these numbers. -/
def sampleAirports : AirportsJson :=
  { kbufRunway := { id := "23", heading := 230, startLat := 42.94, startLon := -78.73 }
    kiagRunway := { id := "28R", heading := 280, startLat := 43.11, startLon := -78.95 } }

end

/- Arithmetic facts about the JS remainder. -/

section JsModLemmas

theorem jsMod_of_nonneg {x : ℝ} (b : ℝ) (hx : 0 ≤ x) :
    jsMod x b = x - b * ⌊x / b⌋ := by
  simp [jsMod, hx]

theorem jsMod_of_neg {x : ℝ} (b : ℝ) (hx : x < 0) :
    jsMod x b = -jsMod (-x) b := by
  have hx' : ¬ 0 ≤ x := not_le.mpr hx
  have hx2 : (0 : ℝ) ≤ -x := by linarith
  simp [jsMod, hx', hx2]

theorem jsMod_nonneg {x b : ℝ} (hx : 0 ≤ x) (hb : 0 < b) : 0 ≤ jsMod x b := by
  rw [jsMod_of_nonneg b hx]
  have h := Int.fract_nonneg (x / b)
  have hfr : x - b * ⌊x / b⌋ = b * Int.fract (x / b) := by
    rw [Int.fract]
    field_simp
  rw [hfr]
  positivity

theorem jsMod_lt {x b : ℝ} (hx : 0 ≤ x) (hb : 0 < b) : jsMod x b < b := by
  rw [jsMod_of_nonneg b hx]
  have h := Int.fract_lt_one (x / b)
  have hfr : x - b * ⌊x / b⌋ = b * Int.fract (x / b) := by
    rw [Int.fract]
    field_simp
  rw [hfr]
  calc b * Int.fract (x / b) < b * 1 := by
        exact mul_lt_mul_of_pos_left h hb
    _ = b := mul_one b

theorem jsMod_eq_self {x b : ℝ} (hx : 0 ≤ x) (hxb : x < b) (hb : 0 < b) :
    jsMod x b = x := by
  rw [jsMod_of_nonneg b hx]
  have hfl : ⌊x / b⌋ = 0 := by
    rw [Int.floor_eq_zero_iff]
    constructor
    · positivity
    · rw [div_lt_one hb]; exact hxb
  rw [hfl]
  ring

theorem jsMod_eq_jsMod_of_sub_int {x y b : ℝ} (hx : 0 ≤ x) (hy : 0 ≤ y)
    (hb : 0 < b) (k : ℤ) (h : x - y = b * k) : jsMod x b = jsMod y b := by
  have hdiv : x / b = y / b + k := by
    field_simp
    linarith
  rw [jsMod_of_nonneg b hx, jsMod_of_nonneg b hy, hdiv, Int.floor_add_int]
  push_cast
  ring_nf
  nlinarith [h]

theorem jsMod_eq_of {x y b : ℝ} (hx : 0 ≤ x) (hy0 : 0 ≤ y) (hyb : y < b)
    (hb : 0 < b) (k : ℤ) (h : x - y = b * k) : jsMod x b = y := by
  rw [jsMod_eq_jsMod_of_sub_int hx hy0 hb k h]
  exact jsMod_eq_self hy0 hyb hb

end JsModLemmas

/- Arithmetic facts about the signed heading difference and the turn step. -/

section HeadingLemmas

theorem headingDelta_range {c t : ℝ} (hc1 : -180 < c) (hc2 : c < 360)
    (ht1 : -180 < t) (ht2 : t < 360) :
    -180 ≤ headingDelta c t ∧ headingDelta c t < 180 := by
  have harg : (0:ℝ) ≤ t - c + 540 := by linarith
  have h360 : (0:ℝ) < 360 := by norm_num
  have h1 := jsMod_nonneg harg h360
  have h2 := jsMod_lt harg h360
  unfold headingDelta
  constructor <;> linarith

theorem headingDelta_sub_int {c t : ℝ} (h : 0 ≤ t - c + 540) :
    ∃ m : ℤ, headingDelta c t - (t - c) = 360 * m := by
  refine ⟨1 - ⌊(t - c + 540) / 360⌋, ?_⟩
  unfold headingDelta
  rw [jsMod_of_nonneg _ h]
  push_cast
  ring

/-- The non-clamped branch of `calculateNewHeading`, for an arbitrary
nonnegative turn amount `τ` smaller than the angular distance: the produced
heading is in [0, 360) and its signed difference to the target has shrunk by
exactly `τ`, keeping its direction. -/
theorem turn_step_general {c t τ : ℝ} (hc1 : -180 < c) (hc2 : c < 360)
    (ht1 : -180 < t) (ht2 : t < 360) (hτ : 0 ≤ τ)
    (h : τ < |headingDelta c t|) :
    0 ≤ jsMod (c + jsSign (headingDelta c t) * τ + 360) 360 ∧
    jsMod (c + jsSign (headingDelta c t) * τ + 360) 360 < 360 ∧
    headingDelta (jsMod (c + jsSign (headingDelta c t) * τ + 360) 360) t
      = headingDelta c t - jsSign (headingDelta c t) * τ := by
  obtain ⟨hd1, hd2⟩ := headingDelta_range hc1 hc2 ht1 ht2
  obtain ⟨m, hm⟩ := headingDelta_sub_int (show (0:ℝ) ≤ t - c + 540 by linarith)
  have h360 : (0:ℝ) < 360 := by norm_num
  set d := headingDelta c t with hdDef
  have hd0 : d ≠ 0 := by
    intro h0
    rw [h0] at h
    simp only [abs_zero] at h
    linarith
  rcases lt_or_gt_of_ne hd0 with hneg | hpos
  · have habs : |d| = -d := abs_of_neg hneg
    rw [habs] at h
    have hsn : jsSign d = -1 := by
      have hn : ¬ (0 < d) := not_lt.mpr hneg.le
      simp [jsSign, hn, hneg]
    rw [hsn]
    have hA : (0:ℝ) ≤ c + (-1) * τ + 360 := by linarith
    have hres0 := jsMod_nonneg hA h360
    have hres1 := jsMod_lt hA h360
    refine ⟨hres0, hres1, ?_⟩
    set r := jsMod (c + (-1) * τ + 360) 360 with hrDef
    have hrEq : r = (c + (-1) * τ + 360) - 360 * ⌊(c + (-1) * τ + 360) / 360⌋ :=
      jsMod_of_nonneg _ hA
    set k := ⌊(c + (-1) * τ + 360) / 360⌋ with hkDef
    have harg2 : (0:ℝ) ≤ t - r + 540 := by linarith
    have hy0 : (0:ℝ) ≤ d + τ + 180 := by linarith
    have hy1 : d + τ + 180 < 360 := by linarith
    have hdiff : (t - r + 540) - (d + τ + 180) = 360 * ((k - m : ℤ) : ℝ) := by
      push_cast
      rw [hrEq]
      linarith [hm]
    have := jsMod_eq_of harg2 hy0 hy1 h360 (k - m) hdiff
    unfold headingDelta
    rw [this]
    ring
  · have habs : |d| = d := abs_of_pos hpos
    rw [habs] at h
    have hsn : jsSign d = 1 := by simp [jsSign, hpos]
    rw [hsn]
    have hA : (0:ℝ) ≤ c + 1 * τ + 360 := by linarith
    have hres0 := jsMod_nonneg hA h360
    have hres1 := jsMod_lt hA h360
    refine ⟨hres0, hres1, ?_⟩
    set r := jsMod (c + 1 * τ + 360) 360 with hrDef
    have hrEq : r = (c + 1 * τ + 360) - 360 * ⌊(c + 1 * τ + 360) / 360⌋ :=
      jsMod_of_nonneg _ hA
    set k := ⌊(c + 1 * τ + 360) / 360⌋ with hkDef
    have harg2 : (0:ℝ) ≤ t - r + 540 := by linarith
    have hy0 : (0:ℝ) ≤ d - τ + 180 := by linarith
    have hy1 : d - τ + 180 < 360 := by linarith
    have hdiff : (t - r + 540) - (d - τ + 180) = 360 * ((k - m : ℤ) : ℝ) := by
      push_cast
      rw [hrEq]
      linarith [hm]
    have := jsMod_eq_of harg2 hy0 hy1 h360 (k - m) hdiff
    unfold headingDelta
    rw [this]
    ring

/-- Source `calculateNewHeading` clamps exactly onto the target when the remaining
angular difference is within one tick's turn amount. -/
theorem calculateNewHeading_clamp {c t e : ℝ}
    (h : |headingDelta c t| ≤ STANDARD_TURN_RATE * e) :
    calculateNewHeading c t e = t := by
  simp [calculateNewHeading, h]

/-- Source `calculateNewHeading` outside the clamp window: the new heading is in
[0, 360) and the signed difference to the target shrinks by exactly the turn
amount, in the same direction (so the turn never overshoots). -/
theorem calculateNewHeading_step {c t e : ℝ} (hc1 : -180 < c) (hc2 : c < 360)
    (ht1 : -180 < t) (ht2 : t < 360) (he : 0 ≤ e)
    (h : STANDARD_TURN_RATE * e < |headingDelta c t|) :
    0 ≤ calculateNewHeading c t e ∧ calculateNewHeading c t e < 360 ∧
    headingDelta (calculateNewHeading c t e) t
      = headingDelta c t - jsSign (headingDelta c t) * (STANDARD_TURN_RATE * e) := by
  have hτ : 0 ≤ STANDARD_TURN_RATE * e := by
    have : (0:ℝ) ≤ 3 * e := by linarith
    simpa [STANDARD_TURN_RATE] using this
  have hcl : ¬ |headingDelta c t| ≤ STANDARD_TURN_RATE * e := not_le.mpr h
  have hstep := turn_step_general hc1 hc2 ht1 ht2 hτ h
  simpa [calculateNewHeading, hcl] using hstep

/-- The turn step keeps headings inside (-180, 360) (it even re-normalises to
[0, 360) whenever it does not clamp; a clamp adopts the target verbatim). -/
theorem calculateNewHeading_mem {c t e : ℝ} (hc1 : -180 < c) (hc2 : c < 360)
    (ht1 : -180 < t) (ht2 : t < 360) (he : 0 ≤ e) :
    -180 < calculateNewHeading c t e ∧ calculateNewHeading c t e < 360 := by
  by_cases hcl : |headingDelta c t| ≤ STANDARD_TURN_RATE * e
  · rw [calculateNewHeading_clamp hcl]
    exact ⟨ht1, ht2⟩
  · obtain ⟨h0, h1, _⟩ := calculateNewHeading_step hc1 hc2 ht1 ht2 he (not_le.mp hcl)
    exact ⟨by linarith, h1⟩

end HeadingLemmas

/- Case analyses of the random transition draw. -/

section TransitionLemmas

open AircraftState

theorem selectNextState_cruise_eq (r : ℝ) :
    selectNextState CRUISE r =
      if r < 0.95 then CRUISE else if r < 1 then TURNING else CRUISE := by
  unfold selectNextState stateTransitions
  simp only [walkTransitions]
  norm_num

theorem selectNextState_cruise_lt {r : ℝ} (h : r < 0.95) :
    selectNextState CRUISE r = CRUISE := by
  rw [selectNextState_cruise_eq, if_pos h]

theorem selectNextState_cruise_top {r : ℝ} (h1 : 0.95 ≤ r) (h2 : r < 1) :
    selectNextState CRUISE r = TURNING := by
  rw [selectNextState_cruise_eq, if_neg (not_lt.mpr h1), if_pos h2]

theorem selectNextState_cruise_overflow {r : ℝ} (h : 1 ≤ r) :
    selectNextState CRUISE r = CRUISE := by
  rw [selectNextState_cruise_eq, if_neg (by linarith), if_neg (not_lt.mpr h)]

theorem selectNextState_cruise_mem (r : ℝ) :
    selectNextState CRUISE r = CRUISE ∨ selectNextState CRUISE r = TURNING := by
  rcases lt_or_le r 0.95 with h | h
  · exact Or.inl (selectNextState_cruise_lt h)
  · rcases lt_or_le r 1 with h2 | h2
    · exact Or.inr (selectNextState_cruise_top h h2)
    · exact Or.inl (selectNextState_cruise_overflow h2)

theorem selectNextState_transit (r : ℝ) :
    selectNextState APPROACH_TRANSIT r = APPROACH_TRANSIT := by
  unfold selectNextState stateTransitions walkTransitions
  split <;> rfl

theorem selectNextState_final (r : ℝ) :
    selectNextState FINAL_APPROACH r = FINAL_APPROACH := by
  unfold selectNextState stateTransitions walkTransitions
  split <;> rfl

theorem randomTransitionStep_not_cruise (geo : Geo) (db : AirportsJson)
    {s : BehaviorState} (a now : ℝ) (hs : s.currentState ≠ CRUISE) :
    randomTransitionStep geo db s a now = (s, {}) := by
  have hgate : ¬ (5000 ≤ now - s.stateStartTime ∧ s.currentState = CRUISE) :=
    fun hng => hs hng.2
  simp [randomTransitionStep, hgate]

theorem randomTransitionStep_dwell (geo : Geo) (db : AirportsJson)
    {s : BehaviorState} (a now : ℝ) (h : now - s.stateStartTime < 5000) :
    randomTransitionStep geo db s a now = (s, {}) := by
  have hgate : ¬ (5000 ≤ now - s.stateStartTime ∧ s.currentState = CRUISE) :=
    fun hng => absurd hng.1 (not_le.mpr h)
  simp [randomTransitionStep, hgate]

/-- From CRUISE the random transition step either leaves the state alone
(possibly consuming one draw) or enters TURNING with a freshly drawn target
heading that is ten times the floor of `36 · rng`.  In particular the
APPROACH_TRANSIT entry branch is dead code: the CRUISE row of the table never
selects it. -/
theorem randomTransitionStep_cruise_cases (geo : Geo) (db : AirportsJson)
    (s : BehaviorState) (a now : ℝ) (hs : s.currentState = CRUISE) :
    randomTransitionStep geo db s a now = (s, {}) ∨
    randomTransitionStep geo db s a now = ({ s with rngIdx := s.rngIdx + 1 }, {}) ∨
    randomTransitionStep geo db s a now =
      ({ s with currentState := TURNING, stateStartTime := now,
                rngIdx := s.rngIdx + 1 + 1,
                targetHeading := some (((jsFloor (s.rng (s.rngIdx + 1) * 36)) : ℝ) * 10) },
       { newState := some TURNING }) := by
  by_cases hgate : 5000 ≤ now - s.stateStartTime ∧ s.currentState = CRUISE
  · rcases selectNextState_cruise_mem (s.rng s.rngIdx) with hC | hT
    · right; left
      simp [randomTransitionStep, hgate, hs, hC]
    · right; right
      simp [randomTransitionStep, hgate, hs, hT]
  · left
    simp [randomTransitionStep, hgate]

end TransitionLemmas

/- Reachability of behavior states and structural invariants. -/

section ReachabilityLemmas

open AircraftState

/-- Behavior states reachable from a fresh `createInitialBehavior` by timer
ticks (which refresh the position copy, as `updateAircraftPosition` does) and
the five forced-maneuver entry points. -/
inductive ReachableB (geo : Geo) (db : AirportsJson) : BehaviorState → Prop where
  | init (rng : ℕ → ℝ) (now : ℝ) : ReachableB geo db (createInitialBehavior rng now)
  | tick {s : BehaviorState} (p : Pt) (c a e now : ℝ) : ReachableB geo db s →
      ReachableB geo db (updateBehavior geo db { s with position := p } c a e now).1
  | turn {s : BehaviorState} (c now : ℝ) : ReachableB geo db s →
      ReachableB geo db (forceTurn s c now).1
  | landing {s : BehaviorState} (a now : ℝ) : ReachableB geo db s →
      ReachableB geo db (forceLanding geo db s a now).1
  | flyTo {s : BehaviorState} (lat lon now : ℝ) : ReachableB geo db s →
      ReachableB geo db (forceFlyTo geo s lat lon now).1
  | climb {s : BehaviorState} (a now : ℝ) : ReachableB geo db s →
      ReachableB geo db (forceClimb s a now).1
  | descent {s : BehaviorState} (a now : ℝ) : ReachableB geo db s →
      ReachableB geo db (forceDescent s a now).1

theorem applyStateBehavior_not_transit (geo : Geo) (s : BehaviorState)
    (upd : BehaviorUpdate) (c a e now : ℝ) (hs : s.currentState ≠ APPROACH_TRANSIT) :
    (applyStateBehavior geo s upd c a e now).1.currentState ≠ APPROACH_TRANSIT := by
  obtain ⟨cs, th, ta, sst, rg, ri, ap, pos⟩ := s
  cases cs <;> cases th <;> cases ta <;> cases ap <;>
    simp_all [applyStateBehavior] <;> split_ifs <;> simp_all

theorem randomTransitionStep_not_transit (geo : Geo) (db : AirportsJson)
    (s : BehaviorState) (a now : ℝ) (hs : s.currentState ≠ APPROACH_TRANSIT) :
    (randomTransitionStep geo db s a now).1.currentState ≠ APPROACH_TRANSIT := by
  by_cases hc : s.currentState = CRUISE
  · rcases randomTransitionStep_cruise_cases geo db s a now hc with h1 | h1 | h1 <;>
      rw [h1] <;> simp [hc]
  · rw [randomTransitionStep_not_cruise geo db a now hc]
    exact hs

theorem updateBehavior_not_transit (geo : Geo) (db : AirportsJson)
    (s : BehaviorState) (c a e now : ℝ) (hs : s.currentState ≠ APPROACH_TRANSIT) :
    (updateBehavior geo db s c a e now).1.currentState ≠ APPROACH_TRANSIT := by
  unfold updateBehavior
  exact applyStateBehavior_not_transit _ _ _ _ _ _ _
    (randomTransitionStep_not_transit _ _ _ _ _ hs)

/-- Target fields are present whenever the current state needs them: a TURNING
state has a target heading, CLIMBING/DESCENDING states have a target altitude,
and a FINAL_APPROACH state has an approach plan. -/
def TargetInv (s : BehaviorState) : Prop :=
  (s.currentState = TURNING → s.targetHeading.isSome) ∧
  (s.currentState = CLIMBING ∨ s.currentState = DESCENDING → s.targetAltitude.isSome) ∧
  (s.currentState = FINAL_APPROACH → s.approachPlan.isSome)

set_option maxHeartbeats 1000000 in
theorem applyStateBehavior_targetInv (geo : Geo) (s : BehaviorState)
    (upd : BehaviorUpdate) (c a e now : ℝ) (h : TargetInv s) :
    TargetInv (applyStateBehavior geo s upd c a e now).1 := by
  obtain ⟨h1, h2, h3⟩ := h
  obtain ⟨cs, th, ta, sst, rg, ri, ap, pos⟩ := s
  cases cs <;> cases th <;> cases ta <;> cases ap <;>
    dsimp only [applyStateBehavior] <;>
    (try split_ifs) <;>
    simp_all [TargetInv]

theorem randomTransitionStep_targetInv (geo : Geo) (db : AirportsJson)
    (s : BehaviorState) (a now : ℝ) (h : TargetInv s) :
    TargetInv (randomTransitionStep geo db s a now).1 := by
  by_cases hc : s.currentState = CRUISE
  · rcases randomTransitionStep_cruise_cases geo db s a now hc with h1 | h1 | h1
    · rw [h1]; exact h
    · rw [h1]; exact h
    · rw [h1]
      refine ⟨fun _ => rfl, fun hx => ?_, fun hx => ?_⟩ <;> simp at hx
  · rw [randomTransitionStep_not_cruise geo db a now hc]
    exact h

theorem updateBehavior_targetInv (geo : Geo) (db : AirportsJson)
    (s : BehaviorState) (c a e now : ℝ) (h : TargetInv s) :
    TargetInv (updateBehavior geo db s c a e now).1 := by
  unfold updateBehavior
  exact applyStateBehavior_targetInv _ _ _ _ _ _ _
    (randomTransitionStep_targetInv _ _ _ _ _ h)

end ReachabilityLemmas

section AltitudeLemmas

open AircraftState

theorem updateBehavior_eq_applyState_of_not_cruise (geo : Geo) (db : AirportsJson)
    (s : BehaviorState) (c a e now : ℝ) (hs : s.currentState ≠ CRUISE) :
    updateBehavior geo db s c a e now = applyStateBehavior geo s {} c a e now := by
  unfold updateBehavior
  rw [randomTransitionStep_not_cruise geo db a now hs]

theorem applyStateBehavior_climbing_alt (geo : Geo) (s : BehaviorState)
    (upd : BehaviorUpdate) (c a e now : ℝ) {t : ℝ}
    (hs : s.currentState = CLIMBING) (ht : s.targetAltitude = some t) :
    (applyStateBehavior geo s upd c a e now).2.newAltitude
      = some (min (a + 500 * e / 60) t) := by
  obtain ⟨cs, th, ta, sst, rg, ri, ap, pos⟩ := s
  dsimp only at hs ht
  subst hs
  subst ht
  dsimp only [applyStateBehavior]
  split_ifs <;> rfl

theorem applyStateBehavior_descending_alt (geo : Geo) (s : BehaviorState)
    (upd : BehaviorUpdate) (c a e now : ℝ) {t : ℝ}
    (hs : s.currentState = DESCENDING) (ht : s.targetAltitude = some t) :
    (applyStateBehavior geo s upd c a e now).2.newAltitude
      = some (max (a - 500 * e / 60) t) := by
  obtain ⟨cs, th, ta, sst, rg, ri, ap, pos⟩ := s
  dsimp only at hs ht
  subst hs
  subst ht
  dsimp only [applyStateBehavior]
  split_ifs <;> rfl

theorem applyStateBehavior_final_alt (geo : Geo) (s : BehaviorState)
    (upd : BehaviorUpdate) (c a e now : ℝ) {plan : RunwayApproach}
    (hs : s.currentState = FINAL_APPROACH) (hp : s.approachPlan = some plan) :
    (applyStateBehavior geo s upd c a e now).2.newAltitude
      = some (max (a - DESCENT_RATE * e / 60) plan.runway.elevation) := by
  obtain ⟨cs, th, ta, sst, rg, ri, ap, pos⟩ := s
  dsimp only at hs hp
  subst hs
  subst hp
  dsimp only [applyStateBehavior]
  split_ifs <;> rfl

end AltitudeLemmas

/- Claim theorems. -/

/-- C4: starting from `createInitialBehavior` (CRUISE), no sequence of
`updateBehavior` ticks or forced maneuvers (`forceTurn`, `forceLanding`,
`forceFlyTo`, `forceClimb`, `forceDescent`) ever reaches a behavior state
whose `currentState` is APPROACH_TRANSIT: `forceLanding` enters TURNING
directly and the CRUISE random draw only selects CRUISE or TURNING, so the
APPROACH_TRANSIT entry and transit logic of `updateBehavior` are
unreachable. -/
theorem approach_transit_unreachable (geo : Geo) (db : AirportsJson)
    (s : BehaviorState) (h : ReachableB geo db s) :
    s.currentState ≠ AircraftState.APPROACH_TRANSIT := by
  induction h with
  | init rng now => simp [createInitialBehavior]
  | tick p c a e now _ ih => exact updateBehavior_not_transit _ _ _ _ _ _ _ ih
  | turn c now _ ih => simp [forceTurn]
  | landing a now _ ih => simp [forceLanding]
  | flyTo lat lon now _ ih => simp [forceFlyTo]
  | climb a now _ ih => simp [forceClimb]
  | descent a now _ ih => simp [forceDescent]

/-- Witness for C4: the freshly created behavior state is reachable and is not
in APPROACH_TRANSIT. -/
theorem approach_transit_unreachable_witness :
    (createInitialBehavior (fun _ => 0) 0).currentState
      ≠ AircraftState.APPROACH_TRANSIT :=
  approach_transit_unreachable constGeo sampleAirports _
    (ReachableB.init (fun _ => 0) 0)

/-- C6 counterexample: the claimed "target fields are defined if and only if
the state requires them" fails in the "only if" direction: `forceLanding`
applied to the initial state produces a TURNING state whose `targetAltitude`
is set (the claim allows `targetAltitude` only in CLIMBING, DESCENDING and
FINAL_APPROACH). -/
theorem target_fields_iff_counterexample :
    (forceLanding turfGeo sampleAirports (createInitialBehavior (fun _ => 0) 0)
        3000 0).1.currentState = AircraftState.TURNING ∧
    (forceLanding turfGeo sampleAirports (createInitialBehavior (fun _ => 0) 0)
        3000 0).1.targetAltitude ≠ none := by
  constructor
  · rfl
  · simp [forceLanding]

/-- C6 (amended): every reachable behavior state has the target fields its
current state requires (TURNING has `targetHeading`, CLIMBING/DESCENDING have
`targetAltitude`, FINAL_APPROACH has `approachPlan`); the converse direction
of the claim fails (see the counterexample), because forced maneuvers and
state exits can leave stale target fields behind. -/
theorem reachable_target_fields (geo : Geo) (db : AirportsJson)
    (s : BehaviorState) (h : ReachableB geo db s) : TargetInv s := by
  induction h with
  | init rng now => simp [TargetInv, createInitialBehavior]
  | tick p c a e now _ ih => exact updateBehavior_targetInv _ _ _ _ _ _ _ ih
  | turn c now _ ih => simp [TargetInv, forceTurn]
  | landing a now _ ih => simp [TargetInv, forceLanding]
  | flyTo lat lon now _ ih => simp [TargetInv, forceFlyTo]
  | climb a now _ ih => simp [TargetInv, forceClimb]
  | descent a now _ ih => simp [TargetInv, forceDescent]

/-- Witness for the amended C6 at the initial state. -/
theorem reachable_target_fields_witness :
    TargetInv (createInitialBehavior (fun _ => 1) 0) :=
  reachable_target_fields constGeo sampleAirports _
    (ReachableB.init (fun _ => 1) 0)

/-- C2: in a tick of `updateBehavior`, a CLIMBING state with a target altitude
never reports an altitude above the target, a DESCENDING state never reports
one below the target, and a FINAL_APPROACH state with an approach plan never
reports one below the plan's runway elevation. -/
theorem updateBehavior_altitude_clamp (geo : Geo) (db : AirportsJson)
    (s : BehaviorState) (c a e now : ℝ) :
    (s.currentState = AircraftState.CLIMBING → ∀ t, s.targetAltitude = some t →
      ∀ v, (updateBehavior geo db s c a e now).2.newAltitude = some v → v ≤ t) ∧
    (s.currentState = AircraftState.DESCENDING → ∀ t, s.targetAltitude = some t →
      ∀ v, (updateBehavior geo db s c a e now).2.newAltitude = some v → t ≤ v) ∧
    (s.currentState = AircraftState.FINAL_APPROACH →
      ∀ plan, s.approachPlan = some plan →
      ∀ v, (updateBehavior geo db s c a e now).2.newAltitude = some v →
        plan.runway.elevation ≤ v) := by
  refine ⟨?_, ?_, ?_⟩
  · intro hs t ht v hv
    rw [updateBehavior_eq_applyState_of_not_cruise geo db s c a e now
        (by rw [hs]; decide)] at hv
    rw [applyStateBehavior_climbing_alt geo s {} c a e now hs ht] at hv
    simp only [Option.some.injEq] at hv
    exact hv ▸ min_le_right _ _
  · intro hs t ht v hv
    rw [updateBehavior_eq_applyState_of_not_cruise geo db s c a e now
        (by rw [hs]; decide)] at hv
    rw [applyStateBehavior_descending_alt geo s {} c a e now hs ht] at hv
    simp only [Option.some.injEq] at hv
    exact hv ▸ le_max_right _ _
  · intro hs plan hp v hv
    rw [updateBehavior_eq_applyState_of_not_cruise geo db s c a e now
        (by rw [hs]; decide)] at hv
    rw [applyStateBehavior_final_alt geo s {} c a e now hs hp] at hv
    simp only [Option.some.injEq] at hv
    exact hv ▸ le_max_right _ _

/-- C5 counterexample: `selectNextState` does not self-loop with probability
1.0 from TURNING — its table row {CRUISE 0.1, TURNING 0.9} sends a draw of
0.05 to CRUISE. -/
theorem selectNextState_selfloop_counterexample :
    selectNextState AircraftState.TURNING 0.05 ≠ AircraftState.TURNING := by
  unfold selectNextState stateTransitions
  simp only [walkTransitions]
  norm_num
  decide

/-- C5 (amended): from CRUISE the draw selects TURNING exactly on the top 0.05
of the [0, 1) range and CRUISE otherwise; APPROACH_TRANSIT and FINAL_APPROACH
self-loop with probability 1.0; the rows for TURNING/CLIMBING/DESCENDING do
not self-loop with probability 1.0 (see the counterexample) but are never
consulted, because `updateBehavior` performs the random draw only from
CRUISE. -/
theorem selectNextState_table_spec :
    (∀ r : ℝ, r < 1 → selectNextState AircraftState.CRUISE r =
        if r < 0.95 then AircraftState.CRUISE else AircraftState.TURNING) ∧
    (∀ r : ℝ, selectNextState AircraftState.APPROACH_TRANSIT r
        = AircraftState.APPROACH_TRANSIT) ∧
    (∀ r : ℝ, selectNextState AircraftState.FINAL_APPROACH r
        = AircraftState.FINAL_APPROACH) ∧
    (∀ (geo : Geo) (db : AirportsJson) (s : BehaviorState) (a now : ℝ),
      s.currentState ≠ AircraftState.CRUISE →
      randomTransitionStep geo db s a now = (s, {})) := by
  refine ⟨?_, selectNextState_transit, selectNextState_final, ?_⟩
  · intro r h1
    by_cases h : r < 0.95
    · rw [selectNextState_cruise_lt h, if_pos h]
    · rw [selectNextState_cruise_top (not_lt.mp h) h1, if_neg h]
  · intro geo db s a now hs
    exact randomTransitionStep_not_cruise geo db a now hs

/-- Witness for the amended C5 at concrete draws. -/
theorem selectNextState_table_spec_witness :
    selectNextState AircraftState.CRUISE 0.97 = AircraftState.TURNING ∧
    selectNextState AircraftState.CRUISE 0.5 = AircraftState.CRUISE ∧
    selectNextState AircraftState.APPROACH_TRANSIT 0.5
      = AircraftState.APPROACH_TRANSIT := by
  refine ⟨?_, ?_, selectNextState_table_spec.2.1 0.5⟩
  · have h := selectNextState_table_spec.1 0.97 (by norm_num)
    rw [if_neg (by norm_num)] at h
    exact h
  · have h := selectNextState_table_spec.1 0.5 (by norm_num)
    rw [if_pos (by norm_num)] at h
    exact h

/-- The heading an `updateAircraftPosition` tick writes is the behavior
update's `newHeading` when present and the previous heading otherwise
(definitional projection, shared by several proofs). -/
theorem updateAircraftPosition_heading (geo : Geo) (db : AirportsJson)
    (ac : Aircraft) (e now : ℝ) :
    (updateAircraftPosition geo db ac e now).heading =
      ((updateBehavior geo db
          { ac.behavior.data with position := Pt.mk ac.position.lon ac.position.lat }
          ac.heading ac.altitude e now).2.newHeading).getD ac.heading := rfl

/-- C8: `updateAircraftPosition` applies the behavior update's heading,
altitude and ground speed onto the snapshot before the projection math, and
the new position is the geodesic destination reached from the pre-update
position over distance `groundSpeed · elapsedSeconds / 3600` nautical miles
along the post-update heading; the position's timestamp is the tick's
`Date.now()`. -/
theorem updateAircraftPosition_projection (geo : Geo) (db : AirportsJson)
    (ac : Aircraft) (e now : ℝ) :
    (updateAircraftPosition geo db ac e now).heading =
      ((updateBehavior geo db
          { ac.behavior.data with position := Pt.mk ac.position.lon ac.position.lat }
          ac.heading ac.altitude e now).2.newHeading).getD ac.heading ∧
    (updateAircraftPosition geo db ac e now).altitude =
      ((updateBehavior geo db
          { ac.behavior.data with position := Pt.mk ac.position.lon ac.position.lat }
          ac.heading ac.altitude e now).2.newAltitude).getD ac.altitude ∧
    (updateAircraftPosition geo db ac e now).groundSpeed =
      ((updateBehavior geo db
          { ac.behavior.data with position := Pt.mk ac.position.lon ac.position.lat }
          ac.heading ac.altitude e now).2.newGroundSpeed).getD ac.groundSpeed ∧
    (updateAircraftPosition geo db ac e now).position.lon =
      (geo.destination (Pt.mk ac.position.lon ac.position.lat)
        ((updateAircraftPosition geo db ac e now).groundSpeed * e / 3600)
        ((updateAircraftPosition geo db ac e now).heading)).lon ∧
    (updateAircraftPosition geo db ac e now).position.lat =
      (geo.destination (Pt.mk ac.position.lon ac.position.lat)
        ((updateAircraftPosition geo db ac e now).groundSpeed * e / 3600)
        ((updateAircraftPosition geo db ac e now).heading)).lat ∧
    (updateAircraftPosition geo db ac e now).position.timestamp = now :=
  ⟨rfl, rfl, rfl, rfl, rfl, rfl⟩

/-- C9: `calculateApproachFix` places the fix at range
`(altitude - FIELD_ELEVATION) / 1000 · DESCENT_GRADIENT` nautical miles from
the runway threshold, on the reciprocal bearing `(heading + 180) mod 360`
(written out for headings in [0, 360)), at the requested altitude. -/
theorem calculateApproachFix_geometry (geo : Geo) (runway : RunwayJson)
    (altitude : ℝ) (h0 : 0 ≤ runway.heading) (h1 : runway.heading < 360) :
    calculateApproachFix geo runway altitude =
      ((geo.destination (Pt.mk runway.startLon runway.startLat)
          ((altitude - FIELD_ELEVATION) / 1000 * DESCENT_GRADIENT)
          (if runway.heading < 180 then runway.heading + 180
           else runway.heading - 180)).lon,
       (geo.destination (Pt.mk runway.startLon runway.startLat)
          ((altitude - FIELD_ELEVATION) / 1000 * DESCENT_GRADIENT)
          (if runway.heading < 180 then runway.heading + 180
           else runway.heading - 180)).lat,
       altitude) := by
  have hb : jsMod (runway.heading + 180) 360 =
      if runway.heading < 180 then runway.heading + 180
      else runway.heading - 180 := by
    by_cases h : runway.heading < 180
    · rw [if_pos h]
      exact jsMod_eq_self (by linarith) (by linarith) (by norm_num)
    · rw [if_neg h]
      have h180 : (180:ℝ) ≤ runway.heading := not_lt.mp h
      exact jsMod_eq_of (by linarith) (by linarith) (by linarith) (by norm_num) 1
        (by push_cast; ring)
  unfold calculateApproachFix
  rw [hb]

/-- Witness for C9 on a concrete runway (heading 230, so the reciprocal
bearing is 50); under the degenerate geodesy the fix sits at the threshold. -/
theorem calculateApproachFix_geometry_witness :
    calculateApproachFix constGeo sampleAirports.kbufRunway 3000
      = (-78.73, 42.94, 3000) := by
  rw [calculateApproachFix_geometry constGeo sampleAirports.kbufRunway 3000
      (by norm_num [sampleAirports]) (by norm_num [sampleAirports])]
  norm_num [sampleAirports, constGeo]

/-- C10: every `updateAircraftPosition` tick leaves `positionHistory` no
longer than `MAX_HISTORY_LENGTH` (= 10) regardless of its previous length, and
its first element is the position the tick superseded. -/
theorem positionHistory_bound (geo : Geo) (db : AirportsJson) (ac : Aircraft)
    (e now : ℝ) :
    (updateAircraftPosition geo db ac e now).positionHistory.length
        ≤ MAX_HISTORY_LENGTH ∧
    (updateAircraftPosition geo db ac e now).positionHistory.head?
        = some ac.position := by
  constructor
  · show ((ac.position :: ac.positionHistory).take MAX_HISTORY_LENGTH).length
        ≤ MAX_HISTORY_LENGTH
    rw [List.length_take]
    exact min_le_left _ _
  · rfl

/-- A concrete aircraft snapshot at the origin, heading 270, in CRUISE, used
to instantiate simulation runs at concrete inputs. -/
def testAircraft : Aircraft :=
  { position := { lon := 0, lat := 0, timestamp := 0 }
    positionHistory := []
    altitude := 1500
    heading := 270
    groundSpeed := 95
    type := "PA28"
    squawk := "4200"
    behavior :=
      { state := AircraftState.CRUISE
        data :=
          { currentState := AircraftState.CRUISE
            targetHeading := none
            targetAltitude := none
            stateStartTime := 0
            rng := fun _ => 0
            rngIdx := 0
            approachPlan := none
            position := Pt.mk 0 0 } } }

/-- C3 counterexample: with the same seed stream, the same single elapsed-time
tick and no forced commands, two runs whose wall clocks differ produce
different outputs — the position timestamps (and `stateStartTime` bookkeeping)
come from `Date.now()`, which the claim does not fix. -/
theorem determinism_counterexample :
    (updateAircraftPosition turfGeo sampleAirports testAircraft 1 1000).position.timestamp
      ≠ (updateAircraftPosition turfGeo sampleAirports testAircraft 1 2000).position.timestamp := by
  show (1000 : ℝ) ≠ 2000
  norm_num

/-- C3 (amended): with the wall clock made part of the inputs, the simulation
is deterministic: equal initial snapshots (same seed stream) and equal command
scripts (same elapsed seconds, commands, and `Date.now()` observations)
produce identical snapshot traces. -/
theorem runTrace_deterministic (geo : Geo) (db : AirportsJson)
    (a b : Aircraft) (s1 s2 : List SimCommand) (hab : a = b) (hs : s1 = s2) :
    runTrace geo db a s1 = runTrace geo db b s2 := by
  subst hab
  subst hs
  rfl

/-- Witness for the amended C3: a concrete one-tick replay. -/
theorem runTrace_deterministic_witness :
    runTrace constGeo sampleAirports testAircraft [SimCommand.tick 1 5]
      = runTrace constGeo sampleAirports testAircraft [SimCommand.tick 1 5] :=
  runTrace_deterministic constGeo sampleAirports testAircraft testAircraft
    [SimCommand.tick 1 5] [SimCommand.tick 1 5] rfl rfl

section TurningLemmas

open AircraftState

theorem applyStateBehavior_cruise (geo : Geo) (s : BehaviorState)
    (upd : BehaviorUpdate) (c a e now : ℝ) (hs : s.currentState = CRUISE) :
    applyStateBehavior geo s upd c a e now = (s, upd) := by
  obtain ⟨cs, th, ta, sst, rg, ri, ap, pos⟩ := s
  dsimp only at hs
  subst hs
  rfl

theorem applyStateBehavior_turning_newHeading (geo : Geo) (s : BehaviorState)
    (upd : BehaviorUpdate) (c a e now : ℝ) {t : ℝ}
    (hs : s.currentState = TURNING) (ht : s.targetHeading = some t) :
    (applyStateBehavior geo s upd c a e now).2.newHeading
      = some (calculateNewHeading c t e) := by
  obtain ⟨cs, th, ta, sst, rg, ri, ap, pos⟩ := s
  dsimp only at hs ht
  subst hs
  subst ht
  dsimp only [applyStateBehavior]
  split_ifs with hcl
  · cases ap <;> rfl
  · rfl

theorem applyStateBehavior_turning_exit (geo : Geo) (s : BehaviorState)
    (upd : BehaviorUpdate) (c a e now : ℝ) {t : ℝ}
    (hs : s.currentState = TURNING) (ht : s.targetHeading = some t)
    (hr : calculateNewHeading c t e = t) :
    (applyStateBehavior geo s upd c a e now).1.currentState ≠ TURNING := by
  obtain ⟨cs, th, ta, sst, rg, ri, ap, pos⟩ := s
  dsimp only at hs ht
  subst hs
  subst ht
  dsimp only [applyStateBehavior]
  rw [if_pos hr]
  cases ap <;> simp

theorem randomTransitionStep_stay (geo : Geo) (db : AirportsJson)
    (s : BehaviorState) (a now : ℝ) (hs : s.currentState = CRUISE)
    (hr : s.rng s.rngIdx < 0.95) :
    (randomTransitionStep geo db s a now).1.currentState = CRUISE ∧
    (randomTransitionStep geo db s a now).2 = {} := by
  by_cases hgate : 5000 ≤ now - s.stateStartTime ∧ s.currentState = CRUISE
  · have hsel := selectNextState_cruise_lt hr
    constructor <;> simp [randomTransitionStep, hgate, hs, hsel]
  · have hnot : ¬ (5000 : ℝ) ≤ now - s.stateStartTime := fun hx => hgate ⟨hx, hs⟩
    constructor <;> simp [randomTransitionStep, hnot, hs]

end TurningLemmas

/-- C1: the TURNING step never overshoots.  For headings in [0, 360) and a
nonnegative tick length: (1) when the signed angular difference (shorter
direction, `headingDelta`) is within one tick's turn amount (3°/s ·
elapsedSeconds), `calculateNewHeading` lands exactly on the target; (2)
otherwise the angular distance shrinks by exactly the turn amount with its
direction preserved — the heading never passes the target; (3) a TURNING tick
of `updateBehavior` emits exactly `calculateNewHeading` of the stored target;
(4) once the computed heading equals the target, the TURNING state exits (to
CRUISE or FINAL_APPROACH) in the same `updateBehavior` tick; (5) afterwards, a
tick in CRUISE that does not re-enter TURNING (dwell gate closed, or a draw
below 0.95) emits no heading change. -/
theorem turning_no_overshoot (geo : Geo) (db : AirportsJson) (s : BehaviorState)
    (c t a e now : ℝ) (hc0 : 0 ≤ c) (hc1 : c < 360) (ht0 : 0 ≤ t) (ht1 : t < 360)
    (he : 0 ≤ e) :
    (|headingDelta c t| ≤ STANDARD_TURN_RATE * e → calculateNewHeading c t e = t) ∧
    (STANDARD_TURN_RATE * e < |headingDelta c t| →
      |headingDelta (calculateNewHeading c t e) t|
          = |headingDelta c t| - STANDARD_TURN_RATE * e ∧
      jsSign (headingDelta (calculateNewHeading c t e) t)
          = jsSign (headingDelta c t)) ∧
    (s.currentState = AircraftState.TURNING → s.targetHeading = some t →
      (updateBehavior geo db s c a e now).2.newHeading
          = some (calculateNewHeading c t e)) ∧
    (s.currentState = AircraftState.TURNING → s.targetHeading = some t →
      calculateNewHeading c t e = t →
      (updateBehavior geo db s c a e now).1.currentState ≠ AircraftState.TURNING) ∧
    (s.currentState = AircraftState.CRUISE →
      (now - s.stateStartTime < 5000 ∨ s.rng s.rngIdx < 0.95) →
      (updateBehavior geo db s c a e now).2.newHeading = none) := by
  have hτ : 0 ≤ STANDARD_TURN_RATE * e := by
    have : (0:ℝ) ≤ 3 * e := by linarith
    simpa [STANDARD_TURN_RATE] using this
  refine ⟨fun h => calculateNewHeading_clamp h, ?_, ?_, ?_, ?_⟩
  · intro hgt
    obtain ⟨hr0, hr1, hstep⟩ := calculateNewHeading_step (by linarith) hc1
      (by linarith) ht1 he hgt
    have hd0 : headingDelta c t ≠ 0 := by
      intro h0
      rw [h0] at hgt
      simp only [abs_zero] at hgt
      linarith
    rcases lt_or_gt_of_ne hd0 with hneg | hpos
    · have hsn : jsSign (headingDelta c t) = -1 := by
        have hn : ¬ (0 < headingDelta c t) := not_lt.mpr hneg.le
        simp [jsSign, hn, hneg]
      rw [hstep, hsn]
      have habs : |headingDelta c t| = -headingDelta c t := abs_of_neg hneg
      rw [habs] at hgt ⊢
      have harg : headingDelta c t - (-1) * (STANDARD_TURN_RATE * e) < 0 := by linarith
      rw [abs_of_neg harg]
      constructor
      · ring
      · unfold jsSign
        rw [if_neg (not_lt.mpr harg.le), if_pos harg]
    · have hsn : jsSign (headingDelta c t) = 1 := by simp [jsSign, hpos]
      rw [hstep, hsn]
      have habs : |headingDelta c t| = headingDelta c t := abs_of_pos hpos
      rw [habs] at hgt ⊢
      have harg : 0 < headingDelta c t - 1 * (STANDARD_TURN_RATE * e) := by linarith
      rw [abs_of_pos harg]
      constructor
      · ring
      · unfold jsSign
        rw [if_pos harg]
  · intro hs ht
    rw [updateBehavior_eq_applyState_of_not_cruise geo db s c a e now
        (by rw [hs]; decide)]
    exact applyStateBehavior_turning_newHeading geo s {} c a e now hs ht
  · intro hs ht hr
    rw [updateBehavior_eq_applyState_of_not_cruise geo db s c a e now
        (by rw [hs]; decide)]
    exact applyStateBehavior_turning_exit geo s {} c a e now hs ht hr
  · intro hs hstay
    rcases hstay with hdw | hdraw
    · unfold updateBehavior
      rw [randomTransitionStep_dwell geo db a now hdw]
      rw [applyStateBehavior_cruise geo s {} c a e now hs]
    · obtain ⟨hcru, hemp⟩ := randomTransitionStep_stay geo db s a now hs hdraw
      unfold updateBehavior
      rw [applyStateBehavior_cruise geo _ _ c a e now hcru, hemp]

/-- A concrete TURNING behavior state (target heading 150) used to witness C1. -/
def turnState : BehaviorState :=
  { currentState := AircraftState.TURNING
    targetHeading := some 150
    targetAltitude := none
    stateStartTime := 0
    rng := fun _ => 0
    rngIdx := 0
    approachPlan := none
    position := Pt.mk 0 0 }

/-- Witness for C1 at heading 100, target 150: a 10 s tick turns 30° (distance
50° → 20°), and a 20 s tick clamps onto 150 and exits TURNING. -/
theorem turning_no_overshoot_witness :
    calculateNewHeading 100 150 20 = 150 ∧
    |headingDelta (calculateNewHeading 100 150 10) 150|
        = |headingDelta 100 150| - STANDARD_TURN_RATE * 10 ∧
    (updateBehavior constGeo sampleAirports turnState 100 1500 20 0).1.currentState
        ≠ AircraftState.TURNING := by
  have hd : headingDelta 100 150 = 50 := by
    unfold headingDelta
    norm_num
    rw [jsMod_eq_of (x := 590) (y := 230) (by norm_num) (by norm_num) (by norm_num)
        (by norm_num) 1 (by norm_num)]
    norm_num
  have h20 := turning_no_overshoot constGeo sampleAirports turnState 100 150 1500 20 0
    (by norm_num) (by norm_num) (by norm_num) (by norm_num) (by norm_num)
  have h10 := turning_no_overshoot constGeo sampleAirports turnState 100 150 1500 10 0
    (by norm_num) (by norm_num) (by norm_num) (by norm_num) (by norm_num)
  have hclamp : calculateNewHeading 100 150 20 = 150 := by
    refine h20.1 ?_
    rw [hd]
    norm_num [STANDARD_TURN_RATE]
  refine ⟨hclamp, ?_, ?_⟩
  · exact (h10.2.1 (by rw [hd]; norm_num [STANDARD_TURN_RATE])).1
  · exact h20.2.2.2.1 rfl rfl hclamp

/- Evaluation of the turf primitives at the concrete points used below. -/

section TurfEval

theorem degreesToRadians_zero : degreesToRadians 0 = 0 := by
  unfold degreesToRadians
  rw [jsMod_eq_self le_rfl (by norm_num) (by norm_num)]
  ring

theorem degreesToRadians_neg90 : degreesToRadians (-90) = -(Real.pi / 2) := by
  unfold degreesToRadians
  rw [jsMod_of_neg _ (by norm_num), neg_neg,
    jsMod_eq_self (by norm_num) (by norm_num) (by norm_num)]
  ring

theorem jsAtan2_neg_one_zero : jsAtan2 (-1) 0 = -(Real.pi / 2) := by
  unfold jsAtan2
  norm_num

theorem radiansToDegrees_neg_pi_div_two :
    radiansToDegrees (-(Real.pi / 2)) = -90 := by
  have hpi := Real.pi_pos
  unfold radiansToDegrees
  rw [jsMod_of_neg _ (by linarith), neg_neg,
    jsMod_eq_self (by linarith) (by linarith) (by linarith)]
  field_simp
  ring

/-- The actual turf bearing from the origin to the point 90° of longitude to
its west is exactly -90 (turf bearings live in [-180, 180], not [0, 360)). -/
theorem turfBearing_west : turfBearing (Pt.mk 0 0) (Pt.mk (-90) 0) = -90 := by
  unfold turfBearing
  dsimp only
  rw [degreesToRadians_zero, degreesToRadians_neg90]
  simp only [sub_zero, zero_sub, Real.sin_neg, Real.sin_pi_div_two, Real.cos_zero,
    Real.sin_zero, Real.cos_neg, mul_one, one_mul, mul_zero, zero_mul, sub_self]
  rw [jsAtan2_neg_one_zero, radiansToDegrees_neg_pi_div_two]

theorem calculateNewHeading_270_neg90 : calculateNewHeading 270 (-90) 1 = -90 := by
  have hd : headingDelta 270 (-90) = 0 := by
    unfold headingDelta
    norm_num
    rw [jsMod_eq_self (by norm_num) (by norm_num) (by norm_num)]
    norm_num
  simp only [calculateNewHeading]
  rw [hd, if_pos (by norm_num [STANDARD_TURN_RATE])]

end TurfEval

/-- C7 counterexample: starting from a snapshot whose heading 270 lies in
[0, 360), the command sequence "fly to the point at latitude 0, longitude -90"
followed by one 1-second tick writes heading -90 to the snapshot: the turf
bearing is adopted verbatim by the turn clamp, so the heading leaves
[0, 360). -/
theorem heading_range_counterexample :
    0 ≤ testAircraft.heading ∧ testAircraft.heading < 360 ∧
    (runScript turfGeo sampleAirports testAircraft
        [SimCommand.cmdFlyTo 0 (-90) 0, SimCommand.tick 1 1]).heading = -90 ∧
    ¬ (0 ≤ (runScript turfGeo sampleAirports testAircraft
        [SimCommand.cmdFlyTo 0 (-90) 0, SimCommand.tick 1 1]).heading) := by
  have hmain : (runScript turfGeo sampleAirports testAircraft
      [SimCommand.cmdFlyTo 0 (-90) 0, SimCommand.tick 1 1]).heading = -90 := by
    have h1 : (runScript turfGeo sampleAirports testAircraft
        [SimCommand.cmdFlyTo 0 (-90) 0, SimCommand.tick 1 1]).heading
        = (updateAircraftPosition turfGeo sampleAirports
            (radarForceFlyTo turfGeo testAircraft 0 (-90) 0) 1 1).heading := rfl
    rw [h1, updateAircraftPosition_heading]
    rw [updateBehavior_eq_applyState_of_not_cruise _ _ _ _ _ _ _ (by decide)]
    rw [applyStateBehavior_turning_newHeading _ _ _ _ _ _ _ rfl rfl]
    show calculateNewHeading 270 (turfBearing (Pt.mk 0 0) (Pt.mk (-90) 0)) 1 = -90
    rw [turfBearing_west]
    exact calculateNewHeading_270_neg90
  refine ⟨by norm_num [testAircraft], by norm_num [testAircraft], hmain, ?_⟩
  rw [hmain]
  norm_num

/- Heading-range invariant machinery. -/

section HeadingInvariant

open AircraftState

/-- The runway headings recorded in the airports data lie in [0, 360)
(compass headings, as in the real `airports.json`). -/
def DbOk (db : AirportsJson) : Prop :=
  (0 ≤ db.kbufRunway.heading ∧ db.kbufRunway.heading < 360) ∧
  (0 ≤ db.kiagRunway.heading ∧ db.kiagRunway.heading < 360)

/-- The geodesy bearing primitive ranges over (-180, 180], turf's documented
output interval. -/
def GeoBearingOk (geo : Geo) : Prop :=
  ∀ p q : Pt, -180 < geo.bearing p q ∧ geo.bearing p q ≤ 180

/-- Range facts preserved along a run: stored target headings lie in
(-180, 360), the rng stream draws in [0, 1) (seedrandom's range), and stored
approach plans carry runway headings in [0, 360). -/
def BInv (s : BehaviorState) : Prop :=
  (∀ h, s.targetHeading = some h → -180 < h ∧ h < 360) ∧
  (∀ i, 0 ≤ s.rng i ∧ s.rng i < 1) ∧
  (∀ plan, s.approachPlan = some plan →
    0 ≤ plan.runway.heading ∧ plan.runway.heading < 360)

/-- Aircraft-level heading invariant: the snapshot heading lies in
(-180, 360) and the behavior data satisfies `BInv`. -/
def AInv (ac : Aircraft) : Prop :=
  (-180 < ac.heading ∧ ac.heading < 360) ∧ BInv ac.behavior.data

/-- Ticks carry nonnegative elapsed times (the radar timer uses a fixed
positive interval); forced commands are unrestricted. -/
def TickNonneg : SimCommand → Prop
  | SimCommand.tick e _ => 0 ≤ e
  | _ => True

theorem planApproach_runway_heading (geo : Geo) (db : AirportsJson) (a r : ℝ) :
    (planApproach geo db a r).runway.heading = db.kbufRunway.heading ∨
    (planApproach geo db a r).runway.heading = db.kiagRunway.heading := by
  unfold planApproach
  rcases hn : (jsFloor (r * 2)).toNat with _ | n
  · left
    simp [hn]
  · rcases n with _ | m
    · right
      simp [hn]
    · left
      simp [hn]

theorem random_target_bound {r : ℝ} (h0 : 0 ≤ r) (h1 : r < 1) :
    0 ≤ ((jsFloor (r * 36) : ℤ) : ℝ) * 10 ∧
    ((jsFloor (r * 36) : ℤ) : ℝ) * 10 < 360 := by
  have hf0 : (0:ℤ) ≤ jsFloor (r * 36) := Int.floor_nonneg.mpr (by positivity)
  have hf1 : jsFloor (r * 36) < 36 := by
    apply Int.floor_lt.mpr
    push_cast
    nlinarith
  have hc0 : (0:ℝ) ≤ ((jsFloor (r * 36) : ℤ) : ℝ) := by exact_mod_cast hf0
  have hc1 : ((jsFloor (r * 36) : ℤ) : ℝ) ≤ 35 := by
    exact_mod_cast (by omega : jsFloor (r * 36) ≤ 35)
  constructor
  · linarith
  · linarith

theorem randomTransitionStep_BInv (geo : Geo) (db : AirportsJson)
    (s : BehaviorState) (a now : ℝ) (h : BInv s) :
    BInv (randomTransitionStep geo db s a now).1 ∧
    (randomTransitionStep geo db s a now).2.newHeading = none := by
  by_cases hc : s.currentState = CRUISE
  · rcases randomTransitionStep_cruise_cases geo db s a now hc with h1 | h1 | h1 <;>
      rw [h1]
    · exact ⟨h, rfl⟩
    · exact ⟨h, rfl⟩
    · obtain ⟨hth, hrng, hap⟩ := h
      refine ⟨⟨?_, hrng, hap⟩, rfl⟩
      intro x hx
      simp only [Option.some.injEq] at hx
      obtain ⟨hr0, hr1⟩ := hrng (s.rngIdx + 1)
      have hb := random_target_bound hr0 hr1
      exact hx ▸ ⟨by linarith [hb.1], hb.2⟩
  · rw [randomTransitionStep_not_cruise geo db a now hc]
    exact ⟨h, rfl⟩

theorem applyStateBehavior_headInv (geo : Geo) (s : BehaviorState)
    (upd : BehaviorUpdate) (c a e now : ℝ) (hs : BInv s)
    (hc1 : -180 < c) (hc2 : c < 360) (he : 0 ≤ e)
    (hupd : upd.newHeading = none) :
    BInv (applyStateBehavior geo s upd c a e now).1 ∧
    (∀ h, (applyStateBehavior geo s upd c a e now).2.newHeading = some h →
      -180 < h ∧ h < 360) := by
  have hupdFn : ∀ h : ℝ, upd.newHeading = some h → -180 < h ∧ h < 360 := by
    intro h hh
    rw [hupd] at hh
    simp at hh
  obtain ⟨hth, hrng, hap⟩ := hs
  obtain ⟨cs, th, ta, sst, rg, ri, ap, pos⟩ := s
  cases cs
  case CRUISE =>
    dsimp only [applyStateBehavior]
    exact ⟨⟨hth, hrng, hap⟩, hupdFn⟩
  case TURNING =>
    cases th with
    | none =>
      dsimp only [applyStateBehavior]
      exact ⟨⟨hth, hrng, hap⟩, hupdFn⟩
    | some t =>
      have ht := hth t rfl
      have hmem := calculateNewHeading_mem hc1 hc2 ht.1 ht.2 he
      dsimp only [applyStateBehavior]
      split_ifs with hcl
      · cases ap with
        | some plan =>
          refine ⟨⟨hth, hrng, hap⟩, ?_⟩
          intro h hh
          simp only [Option.some.injEq] at hh
          exact hh ▸ hmem
        | none =>
          refine ⟨⟨?_, hrng, hap⟩, ?_⟩
          · intro h hh
            simp at hh
          · intro h hh
            simp only [Option.some.injEq] at hh
            exact hh ▸ hmem
      · refine ⟨⟨hth, hrng, hap⟩, ?_⟩
        intro h hh
        simp only [Option.some.injEq] at hh
        exact hh ▸ hmem
  case CLIMBING =>
    cases ta with
    | none =>
      dsimp only [applyStateBehavior]
      exact ⟨⟨hth, hrng, hap⟩, hupdFn⟩
    | some t =>
      dsimp only [applyStateBehavior]
      split_ifs with hcl
      · exact ⟨⟨hth, hrng, hap⟩, hupdFn⟩
      · exact ⟨⟨hth, hrng, hap⟩, hupdFn⟩
  case DESCENDING =>
    cases ta with
    | none =>
      dsimp only [applyStateBehavior]
      exact ⟨⟨hth, hrng, hap⟩, hupdFn⟩
    | some t =>
      dsimp only [applyStateBehavior]
      split_ifs with hcl
      · exact ⟨⟨hth, hrng, hap⟩, hupdFn⟩
      · exact ⟨⟨hth, hrng, hap⟩, hupdFn⟩
  case APPROACH_TRANSIT =>
    cases ap with
    | none =>
      dsimp only [applyStateBehavior]
      exact ⟨⟨hth, hrng, hap⟩, hupdFn⟩
    | some plan =>
      have hpl := hap plan rfl
      dsimp only [applyStateBehavior]
      split_ifs with hcl
      · refine ⟨⟨?_, hrng, hap⟩, hupdFn⟩
        intro h hh
        simp only [Option.some.injEq] at hh
        exact hh ▸ ⟨by linarith [hpl.1], hpl.2⟩
      · exact ⟨⟨hth, hrng, hap⟩, hupdFn⟩
  case FINAL_APPROACH =>
    cases ap with
    | none =>
      dsimp only [applyStateBehavior]
      exact ⟨⟨hth, hrng, hap⟩, hupdFn⟩
    | some plan =>
      dsimp only [applyStateBehavior]
      split_ifs with hcl
      · refine ⟨⟨hth, hrng, ?_⟩, hupdFn⟩
        intro p hp
        simp at hp
      · exact ⟨⟨hth, hrng, hap⟩, hupdFn⟩

theorem updateBehavior_headInv (geo : Geo) (db : AirportsJson)
    (s : BehaviorState) (c a e now : ℝ) (hs : BInv s)
    (hc1 : -180 < c) (hc2 : c < 360) (he : 0 ≤ e) :
    BInv (updateBehavior geo db s c a e now).1 ∧
    (∀ h, (updateBehavior geo db s c a e now).2.newHeading = some h →
      -180 < h ∧ h < 360) := by
  obtain ⟨hB, hnone⟩ := randomTransitionStep_BInv geo db s a now hs
  unfold updateBehavior
  exact applyStateBehavior_headInv geo _ _ c a e now hB hc1 hc2 he hnone

theorem applyCommand_AInv (geo : Geo) (db : AirportsJson)
    (hgeo : GeoBearingOk geo) (hdb : DbOk db) (ac : Aircraft) (h : AInv ac)
    (cmd : SimCommand) (hcmd : TickNonneg cmd) :
    AInv (applyCommand geo db ac cmd) := by
  obtain ⟨⟨hh1, hh2⟩, hB⟩ := h
  cases cmd with
  | tick e now =>
    have hbd : BInv { ac.behavior.data with
        position := Pt.mk ac.position.lon ac.position.lat } := hB
    obtain ⟨hB2, hnh⟩ := updateBehavior_headInv geo db _ ac.heading ac.altitude e now
      hbd hh1 hh2 hcmd
    refine ⟨?_, hB2⟩
    show -180 < (updateAircraftPosition geo db ac e now).heading ∧
      (updateAircraftPosition geo db ac e now).heading < 360
    rw [updateAircraftPosition_heading]
    rcases hopt : (updateBehavior geo db
        { ac.behavior.data with position := Pt.mk ac.position.lon ac.position.lat }
        ac.heading ac.altitude e now).2.newHeading with _ | v
    · exact ⟨hh1, hh2⟩
    · exact hnh v hopt
  | cmdTurn now =>
    obtain ⟨hth, hrng, hap⟩ := hB
    have harg : (0:ℝ) ≤ ac.heading + 180 := by linarith
    have h0 := jsMod_nonneg harg (by norm_num : (0:ℝ) < 360)
    have h1 := jsMod_lt harg (by norm_num : (0:ℝ) < 360)
    refine ⟨⟨hh1, hh2⟩, ⟨?_, hrng, hap⟩⟩
    intro x hx
    exact (Option.some.inj hx) ▸ ⟨by linarith, h1⟩
  | cmdLanding now =>
    obtain ⟨hth, hrng, hap⟩ := hB
    refine ⟨⟨hh1, hh2⟩, ⟨?_, hrng, ?_⟩⟩
    · intro x hx
      have hbr := hgeo ac.behavior.data.position
        (Pt.mk (planApproach geo db ac.altitude
            (ac.behavior.data.rng ac.behavior.data.rngIdx)).approachFix.lon
          (planApproach geo db ac.altitude
            (ac.behavior.data.rng ac.behavior.data.rngIdx)).approachFix.lat)
      exact (Option.some.inj hx) ▸ ⟨hbr.1, by linarith [hbr.2]⟩
    · intro plan hp
      have hp2 := Option.some.inj hp
      rcases planApproach_runway_heading geo db ac.altitude
          (ac.behavior.data.rng ac.behavior.data.rngIdx) with hr | hr
      · rw [← hp2, hr]
        exact hdb.1
      · rw [← hp2, hr]
        exact hdb.2
  | cmdClimb now =>
    obtain ⟨hth, hrng, hap⟩ := hB
    exact ⟨⟨hh1, hh2⟩, ⟨hth, hrng, hap⟩⟩
  | cmdDescent now =>
    obtain ⟨hth, hrng, hap⟩ := hB
    exact ⟨⟨hh1, hh2⟩, ⟨hth, hrng, hap⟩⟩
  | cmdFlyTo lat lon now =>
    obtain ⟨hth, hrng, hap⟩ := hB
    refine ⟨⟨hh1, hh2⟩, ⟨?_, hrng, hap⟩⟩
    intro x hx
    have hbr := hgeo ac.behavior.data.position (Pt.mk lon lat)
    exact (Option.some.inj hx) ▸ ⟨hbr.1, by linarith [hbr.2]⟩

theorem runScript_AInv (geo : Geo) (db : AirportsJson)
    (hgeo : GeoBearingOk geo) (hdb : DbOk db) :
    ∀ (script : List SimCommand) (ac : Aircraft), AInv ac →
      (∀ cmd ∈ script, TickNonneg cmd) → AInv (runScript geo db ac script) := by
  intro script
  induction script with
  | nil => intro ac h _; exact h
  | cons cmd rest ih =>
    intro ac h hall
    exact ih _ (applyCommand_AInv geo db hgeo hdb ac h cmd
        (hall cmd (by simp)))
      (fun c hc => hall c (by simp [hc]))

end HeadingInvariant

/-- C7 (amended): the heading invariant that actually holds is membership in
(-180, 360), not [0, 360): under the turf bearing range (-180, 180], runway
headings in [0, 360), and seedrandom draws in [0, 1), every run of ticks
(with nonnegative elapsed times) and forced commands keeps the snapshot
heading inside (-180, 360).  The original interval fails because forceFlyTo
and forceLanding adopt turf bearings — which may be negative — verbatim when
the turn clamps onto its target (see the counterexample). -/
theorem heading_range_amended (geo : Geo) (db : AirportsJson)
    (hgeo : GeoBearingOk geo) (hdb : DbOk db) (ac : Aircraft) (h : AInv ac)
    (script : List SimCommand) (hticks : ∀ cmd ∈ script, TickNonneg cmd) :
    -180 < (runScript geo db ac script).heading ∧
    (runScript geo db ac script).heading < 360 :=
  (runScript_AInv geo db hgeo hdb script ac h hticks).1

/-- Witness for the amended C7: a forced reciprocal turn followed by one tick
keeps the heading in (-180, 360). -/
theorem heading_range_amended_witness :
    -180 < (runScript constGeo sampleAirports testAircraft
        [SimCommand.cmdTurn 0, SimCommand.tick 1 0]).heading ∧
    (runScript constGeo sampleAirports testAircraft
        [SimCommand.cmdTurn 0, SimCommand.tick 1 0]).heading < 360 := by
  refine heading_range_amended constGeo sampleAirports ?_ ?_ testAircraft ?_ _ ?_
  · intro p q
    norm_num [constGeo]
  · refine ⟨⟨?_, ?_⟩, ?_, ?_⟩ <;> norm_num [sampleAirports]
  · refine ⟨⟨?_, ?_⟩, ?_, ?_, ?_⟩
    · norm_num [testAircraft]
    · norm_num [testAircraft]
    · intro x hx
      simp [testAircraft] at hx
    · intro i
      norm_num [testAircraft]
    · intro plan hp
      simp [testAircraft] at hp
  · intro cmd hc
    simp only [List.mem_cons, List.not_mem_nil, or_false] at hc
    rcases hc with rfl | rfl
    · trivial
    · norm_num [TickNonneg]

/-- A concrete CLIMBING behavior state used to witness C2. -/
def climbState : BehaviorState :=
  { currentState := AircraftState.CLIMBING
    targetHeading := none
    targetAltitude := some 2500
    stateStartTime := 0
    rng := fun _ => 0
    rngIdx := 0
    approachPlan := none
    position := Pt.mk 0 0 }

/-- Witness for C2: one concrete CLIMBING tick reports 2000 ft, which the
theorem bounds by the 2500 ft target. -/
theorem updateBehavior_altitude_clamp_witness :
    (updateBehavior constGeo sampleAirports climbState 0 1500 60 1000).2.newAltitude
        = some 2000 ∧ (2000 : ℝ) ≤ 2500 := by
  have heval : (updateBehavior constGeo sampleAirports climbState 0 1500 60 1000).2.newAltitude
      = some 2000 := by
    rw [updateBehavior_eq_applyState_of_not_cruise _ _ _ _ _ _ _ (by decide)]
    rw [applyStateBehavior_climbing_alt _ _ _ _ _ _ _ rfl rfl]
    norm_num
  exact ⟨heval,
    (updateBehavior_altitude_clamp constGeo sampleAirports climbState 0 1500 60 1000).1
      rfl 2500 rfl 2000 heval⟩

end AirTraffic
